import Mathlib

/-!
Shallow embedding of the traffic-light state machine in src/src/main.rs.

The Rust program models a traffic light as a cyclic state machine
Green -> Yellow -> Red -> Green.  Each state struct (Red, Green, Yellow)
carries a wait_time Duration fixed by its constructor.  The typestate
wrapper TrafficLight has one From impl per edge; each impl prints the
outgoing state with println, sleeps for the outgoing state's wait_time,
and constructs the fresh successor state.  TrafficLightWrapper is the
tagged union over the three typestates, and its step method dispatches
to the matching From impl.  The side effects (the println and the sleep)
are embedded as an explicit list of events returned alongside the new
state.
-/

/-- Rust std::time::Duration: whole seconds plus a sub-second nanosecond
part.  Duration::new normalises nanoseconds of a second or more into the
seconds field. -/
structure Duration where
  secs : Nat
  nanos : Nat
deriving DecidableEq

/-- Duration::new(secs, nanos). -/
def Duration.new (secs nanos : Nat) : Duration :=
  ⟨secs + nanos / 1000000000, nanos % 1000000000⟩

/-- struct Red, with its wait_time field. -/
structure Red where
  wait_time : Duration
deriving DecidableEq

/-- Red::new(): a Red with a 60 second wait. -/
def Red.new : Red := ⟨Duration.new 60 0⟩

/-- struct Green, with its wait_time field. -/
structure Green where
  wait_time : Duration
deriving DecidableEq

/-- Green::new(): a Green with a 60 second wait. -/
def Green.new : Green := ⟨Duration.new 60 0⟩

/-- struct Yellow, with its wait_time field. -/
structure Yellow where
  wait_time : Duration
deriving DecidableEq

/-- struct TrafficLight, parameterised by the typestate TLS. -/
structure TrafficLight (TLS : Type) where
  state : TLS
deriving DecidableEq

/-- TrafficLight of Green new(): the initial typestate value. -/
def TrafficLight.new : TrafficLight Green := ⟨Green.new⟩

/-- Yellow::new(): a Yellow with a 10 second wait. -/
def Yellow.new : Yellow := ⟨Duration.new 10 0⟩

/-- A traffic-light value of any of the three typestates, as passed to the
debug println in the From impls. -/
inductive AnyLight
  | green (t : TrafficLight Green)
  | yellow (t : TrafficLight Yellow)
  | red (t : TrafficLight Red)
deriving DecidableEq

/-- An observable side effect of one From conversion: the println of the
debug representation of the outgoing state, or the sleep for a duration. -/
inductive Event
  | printDebug (s : AnyLight)
  | sleep (d : Duration)
deriving DecidableEq

/-- Whether an event is the debug println. -/
def Event.isPrintDebug : Event → Bool
  | .printDebug _ => true
  | .sleep _ => false

/-- impl From of TrafficLight Green for TrafficLight Yellow: print the
outgoing green state, sleep for its wait_time, construct a fresh Yellow. -/
def fromGreen (green : TrafficLight Green) : List Event × TrafficLight Yellow :=
  ([Event.printDebug (AnyLight.green green), Event.sleep green.state.wait_time],
   ⟨Yellow.new⟩)

/-- impl From of TrafficLight Yellow for TrafficLight Red: print the
outgoing yellow state, sleep for its wait_time, construct a fresh Red. -/
def fromYellow (yellow : TrafficLight Yellow) : List Event × TrafficLight Red :=
  ([Event.printDebug (AnyLight.yellow yellow), Event.sleep yellow.state.wait_time],
   ⟨Red.new⟩)

/-- impl From of TrafficLight Red for TrafficLight Green: print the
outgoing red state, sleep for its wait_time, construct a fresh Green. -/
def fromRed (red : TrafficLight Red) : List Event × TrafficLight Green :=
  ([Event.printDebug (AnyLight.red red), Event.sleep red.state.wait_time],
   ⟨Green.new⟩)

/-- enum TrafficLightWrapper: the tagged union over the three typestates. -/
inductive TrafficLightWrapper
  | Red (t : TrafficLight Red)
  | Green (t : TrafficLight Green)
  | Yellow (t : TrafficLight Yellow)
deriving DecidableEq

/-- TrafficLightWrapper::new(): starts in the Green variant. -/
def TrafficLightWrapper.new : TrafficLightWrapper :=
  TrafficLightWrapper.Green TrafficLight.new

/-- TrafficLightWrapper::step(self): dispatch on the variant to the
matching From impl, returning the events it performs and the new state. -/
def TrafficLightWrapper.step : TrafficLightWrapper → List Event × TrafficLightWrapper
  | .Green green =>
      let r := fromGreen green
      (r.1, .Yellow r.2)
  | .Yellow yellow =>
      let r := fromYellow yellow
      (r.1, .Red r.2)
  | .Red red =>
      let r := fromRed red
      (r.1, .Green r.2)

/-- The state component of one step, ignoring the effect trace. -/
def TrafficLightWrapper.next (w : TrafficLightWrapper) : TrafficLightWrapper :=
  w.step.2

/-- The state held by the main loop after n iterations, starting from w. -/
def runFrom (w : TrafficLightWrapper) : Nat → TrafficLightWrapper
  | 0 => w
  | n + 1 => (runFrom w n).next

/-- The three variant tags of the wrapper enum. -/
inductive Variant
  | Green
  | Yellow
  | Red
deriving DecidableEq

/-- The variant tag of a wrapper state. -/
def TrafficLightWrapper.variant : TrafficLightWrapper → Variant
  | .Green _ => Variant.Green
  | .Yellow _ => Variant.Yellow
  | .Red _ => Variant.Red

/-- The wait_time carried by a wrapper state. -/
def TrafficLightWrapper.waitTime : TrafficLightWrapper → Duration
  | .Green g => g.state.wait_time
  | .Yellow y => y.state.wait_time
  | .Red r => r.state.wait_time

/-- The state value a wrapper holds, as printed by the From impls. -/
def TrafficLightWrapper.outgoing : TrafficLightWrapper → AnyLight
  | .Green g => AnyLight.green g
  | .Yellow y => AnyLight.yellow y
  | .Red r => AnyLight.red r

/-- Spec-side mapping: the unique successor of a variant in the fixed
cycle Green to Yellow to Red to Green. -/
def cycleSuccessor : Variant → Variant
  | Variant.Green => Variant.Yellow
  | Variant.Yellow => Variant.Red
  | Variant.Red => Variant.Green

/-- Spec-side mapping: the fixed wait duration of each variant, Green 60
seconds, Yellow 10 seconds, Red 60 seconds. -/
def specWait : Variant → Duration
  | Variant.Green => Duration.new 60 0
  | Variant.Yellow => Duration.new 10 0
  | Variant.Red => Duration.new 60 0

/-- A freshly constructed wrapper state of a given variant, built with the
respective ::new constructor, as each From impl does. -/
def freshLight : Variant → TrafficLightWrapper
  | Variant.Green => TrafficLightWrapper.Green ⟨Green.new⟩
  | Variant.Yellow => TrafficLightWrapper.Yellow ⟨Yellow.new⟩
  | Variant.Red => TrafficLightWrapper.Red ⟨Red.new⟩

/-- Spec-side list: the cycle written as the list Green, Yellow, Red. -/
def variantCycleList : List Variant :=
  [Variant.Green, Variant.Yellow, Variant.Red]

theorem step_spec (w : TrafficLightWrapper) :
    w.step = ([Event.printDebug w.outgoing, Event.sleep w.waitTime],
              freshLight (cycleSuccessor w.variant)) := by
  cases w <;> rfl

theorem next_variant (w : TrafficLightWrapper) :
    w.next.variant = cycleSuccessor w.variant := by
  cases w <;> rfl

theorem step_variant (w : TrafficLightWrapper) :
    (w.step.2).variant = cycleSuccessor w.variant := by
  cases w <;> rfl

theorem freshLight_variant (v : Variant) : (freshLight v).variant = v := by
  cases v <;> rfl

theorem freshLight_waitTime (v : Variant) :
    (freshLight v).waitTime = specWait v := by
  cases v <;> rfl

theorem runFrom_new_variant (i : Nat) :
    (runFrom TrafficLightWrapper.new i).variant
      = variantCycleList.getD (i % 3) Variant.Green := by
  induction i with
  | zero => rfl
  | succ n ih =>
      have hlt : n % 3 = 0 ∨ n % 3 = 1 ∨ n % 3 = 2 := by omega
      have hstep : (runFrom TrafficLightWrapper.new (n + 1)).variant
          = cycleSuccessor (runFrom TrafficLightWrapper.new n).variant :=
        next_variant _
      rw [hstep, ih]
      have hmod : (n + 1) % 3 = (n % 3 + 1) % 3 := by omega
      rw [hmod]
      rcases hlt with h | h | h <;>
        simp [h, variantCycleList, cycleSuccessor]

/-- C1: for every state S of the traffic-light machine, one application of
TrafficLightWrapper::step returns a state whose variant is the unique
successor of S's variant in the fixed cycle Green, Yellow, Red, Green. -/
theorem C1_step_follows_cycle (S : TrafficLightWrapper) :
    (S.step.2).variant = cycleSuccessor S.variant := by
  cases S <;> rfl

/-- C2: for every starting state S, applying TrafficLightWrapper::step
three times yields a state of the same variant as S. -/
theorem C2_three_steps_identity_on_variants (S : TrafficLightWrapper) :
    (runFrom S 3).variant = S.variant := by
  cases S <;> rfl

/-- C3: every state the machine produces, at construction and after any
number of step applications, carries the fixed wait duration of its
variant: Green 60 seconds, Yellow 10 seconds, Red 60 seconds. -/
theorem C3_wait_duration_invariant (n : Nat) :
    (runFrom TrafficLightWrapper.new n).waitTime
      = specWait (runFrom TrafficLightWrapper.new n).variant := by
  cases n with
  | zero => rfl
  | succ m =>
      show ((runFrom TrafficLightWrapper.new m).next).waitTime
        = specWait ((runFrom TrafficLightWrapper.new m).next).variant
      generalize runFrom TrafficLightWrapper.new m = w
      cases w <;> rfl

/-- C4: starting from the initial Green state, within 1000 consecutive
step applications the variant of the state at index i equals the element
at index i mod 3 of the list Green, Yellow, Red. -/
theorem C4_thousand_steps_cycle (i : Nat) (h : i ≤ 1000) :
    (runFrom TrafficLightWrapper.new i).variant
      = variantCycleList.getD (i % 3) Variant.Green :=
  runFrom_new_variant i

/-- C4 witness: the theorem instantiated at the concrete index 7. -/
theorem C4_thousand_steps_cycle_witness :
    7 ≤ 1000 ∧
    (runFrom TrafficLightWrapper.new 7).variant
      = variantCycleList.getD (7 % 3) Variant.Green :=
  ⟨by decide, C4_thousand_steps_cycle 7 (by decide)⟩

/-- C5: the machine's initial state is the Green variant with a wait of 60
seconds, and every step replaces the state with a freshly constructed
successor value rather than mutating the old one. -/
theorem C5_initial_green_and_replacement :
    TrafficLightWrapper.new.variant = Variant.Green ∧
    TrafficLightWrapper.new.waitTime = Duration.new 60 0 ∧
    ∀ w : TrafficLightWrapper, w.step.2 = freshLight (cycleSuccessor w.variant) := by
  refine ⟨rfl, rfl, fun w => ?_⟩
  cases w <;> rfl

/-- C6: the step operation is total over the closed three-variant state
set: for every state it returns a trace and a successor state, and the
successor again lies in the closed variant set. -/
theorem C6_step_total (w : TrafficLightWrapper) :
    ∃ tr s, w.step = (tr, s) ∧
      (s.variant = Variant.Green ∨ s.variant = Variant.Yellow ∨
       s.variant = Variant.Red) := by
  refine ⟨w.step.1, w.step.2, rfl, ?_⟩
  cases w <;> simp [TrafficLightWrapper.step, TrafficLightWrapper.variant,
    fromGreen, fromYellow, fromRed]

/-- C7: the machine has exactly 3 states, exactly the 3 directed edges
Green to Yellow, Yellow to Red, Red to Green, and no terminal state: every
variant has a successor under step. -/
theorem C7_shape_of_machine :
    (∀ v : Variant, v = Variant.Green ∨ v = Variant.Yellow ∨ v = Variant.Red) ∧
    (variantCycleList.Nodup ∧ variantCycleList.length = 3) ∧
    (∀ a b : Variant,
      (∃ w : TrafficLightWrapper, w.variant = a ∧ (w.step.2).variant = b) ↔
        (a, b) ∈ [(Variant.Green, Variant.Yellow), (Variant.Yellow, Variant.Red),
                  (Variant.Red, Variant.Green)]) ∧
    (∀ a : Variant, ∃ b : Variant,
      ∃ w : TrafficLightWrapper, w.variant = a ∧ (w.step.2).variant = b) := by
  refine ⟨fun v => by cases v <;> simp, by decide, fun a b => ?_, fun a => ?_⟩
  · constructor
    · rintro ⟨w, hv, hs⟩
      rw [step_variant w, hv] at hs
      subst hs
      cases a <;> decide
    · intro hmem
      simp only [List.mem_cons, List.not_mem_nil, or_false] at hmem
      rcases hmem with h | h | h <;> injection h with ha hb <;> subst ha <;> subst hb <;>
        first
          | exact ⟨freshLight Variant.Green, rfl, rfl⟩
          | exact ⟨freshLight Variant.Yellow, rfl, rfl⟩
          | exact ⟨freshLight Variant.Red, rfl, rfl⟩
  · exact ⟨cycleSuccessor a, freshLight a, freshLight_variant a,
      by rw [step_variant, freshLight_variant]⟩

/-- C8: every step performs exactly one debug println, and the printed
value is the active (outgoing) state together with its wait duration. -/
theorem C8_one_print_per_step (w : TrafficLightWrapper) :
    (w.step.1).filter Event.isPrintDebug = [Event.printDebug w.outgoing] := by
  cases w <;> rfl

/-- C9: the state returned by step depends only on the variant of the
input, not on the input's wait_time field: two inputs of the same variant
yield equal result states. -/
theorem C9_result_independent_of_wait (w1 w2 : TrafficLightWrapper)
    (h : w1.variant = w2.variant) : w1.step.2 = w2.step.2 := by
  cases w1 <;> cases w2 <;> first | rfl | exact Variant.noConfusion h

/-- C9 witness: two Green states with different wait times step to equal
results. -/
theorem C9_result_independent_of_wait_witness :
    (TrafficLightWrapper.Green ⟨⟨Duration.new 60 0⟩⟩).variant
      = (TrafficLightWrapper.Green ⟨⟨Duration.new 5 0⟩⟩).variant ∧
    (TrafficLightWrapper.Green ⟨⟨Duration.new 60 0⟩⟩).step.2
      = (TrafficLightWrapper.Green ⟨⟨Duration.new 5 0⟩⟩).step.2 :=
  ⟨by decide,
   C9_result_independent_of_wait
     (TrafficLightWrapper.Green ⟨⟨Duration.new 60 0⟩⟩)
     (TrafficLightWrapper.Green ⟨⟨Duration.new 5 0⟩⟩) (by decide)⟩

/-- C10: each step performs, in order, the debug println of the outgoing
state, then the sleep for exactly that outgoing state's wait_time, and only
then constructs the fresh successor state; the printed value is the state
being left, not the state being entered. -/
theorem C10_effect_order (w : TrafficLightWrapper) :
    w.step = ([Event.printDebug w.outgoing, Event.sleep w.waitTime],
              freshLight (cycleSuccessor w.variant)) :=
  step_spec w
